import Mathlib

/-!
Verification of the note-taking application's persistence and
state-reconciliation core (`src/components/notebook.tsx` and the
`NoteCard` editor component) against its specification.

The TypeScript source is shallowly embedded: each mutation function and
effect body is a pure Lean function from the collection it reads to the
collection it writes.  `localStorage` is modelled by the `Stored` type,
`uuidv4()` / `new Date().toISOString()` by explicit `freshId` / `now`
parameters (each synchronous mutation body observes a single instant),
and JSON round-tripping on well-formed note arrays is the identity.
-/

set_option maxHeartbeats 1000000

namespace Notebook

/-- A checklist item, as in the `items` field of the `Note` type. -/
structure ChecklistItem where
  id : String
  text : String
  checked : Bool
deriving DecidableEq, Repr

/-- The `Note` record of `notebook.tsx`.  The optional `items?` field is
modelled with `Option`. -/
structure Note where
  id : String
  title : String
  content : String
  createdAt : String
  updatedAt : String
  color : String
  tags : List String
  items : Option (List ChecklistItem)
deriving DecidableEq, Repr

/-- The fixed six-entry color palette `COLORS`. -/
def COLORS : List String :=
  [ "bg-blue-200 border-blue-400"
  , "bg-green-200 border-green-400"
  , "bg-yellow-200 border-yellow-400"
  , "bg-red-200 border-red-400"
  , "bg-purple-200 border-purple-400"
  , "bg-pink-200 border-pink-400" ]

/-- The dialog state `newNote`, of type `Omit<Note, "id" | "createdAt" |
"updatedAt">`. -/
structure NoteFields where
  title : String
  content : String
  color : String
  tags : List String
  items : Option (List ChecklistItem)
deriving DecidableEq, Repr

/-- The initial dialog state: empty title and content, first palette color,
no tags, empty checklist. -/
def initialNewNote : NoteFields :=
  { title := "", content := "", color := COLORS.getD 0 ""
  , tags := [], items := some [] }

/-- The value stored under the `localStorage` key `notes`, classified by
how the query function's truthiness test and `JSON.parse` treat it:
`getItem` returns null (`absent`), the stored string is the empty string
(`empty`, which is falsy in JavaScript), the stored string is non-empty
but not valid JSON (`corrupt`), or the stored string parses as a note
array (`valid`, carrying that array; the JSON text of an array is never
empty). -/
inductive Stored where
  | absent : Stored
  | empty : Stored
  | corrupt : Stored
  | valid (notes : List Note) : Stored
deriving DecidableEq, Repr

/-- The notes query function (lines 88-94):
`savedNotes ? JSON.parse(savedNotes) : []`.  The ternary tests
truthiness, so both null and the stored empty string yield the empty
array without parsing; a non-empty stored string reaches `JSON.parse`,
which on one that is not valid JSON throws a `SyntaxError` that the
function does not catch, so the error propagates to the query
machinery. -/
def load : Stored → Except String (List Note)
  | .absent => .ok []
  | .empty => .ok []
  | .corrupt => .error "SyntaxError: Unexpected token in JSON"
  | .valid ns => .ok ns

/-- The `data: notes = []` destructuring default of `useQuery`: the
component sees the loaded array on success and the default empty array
when the query function threw. -/
def notesQueryData (r : Except String (List Note)) : List Note :=
  match r with
  | .ok ns => ns
  | .error _ => []

/-- `createNote.mutationFn` (lines 102-113): builds the new note with a
fresh id and `createdAt = updatedAt = now`, appends it, writes the result
to storage and returns the created note. -/
def createNoteFn (notes : List Note) (fields : NoteFields)
    (freshId now : String) : Note × List Note :=
  let newNote : Note :=
    { id := freshId, createdAt := now, updatedAt := now
    , title := fields.title, content := fields.content
    , color := fields.color, tags := fields.tags, items := fields.items }
  (newNote, notes ++ [newNote])

/-- `updateNote.mutationFn` (lines 129-136): replaces every note whose id
matches with the given note, verbatim. -/
def updateNoteFn (notes : List Note) (updatedNote : Note) : List Note :=
  notes.map fun note => if note.id = updatedNote.id then updatedNote else note

/-- `deleteNote.mutationFn` (lines 144-149): keeps the notes whose id
differs. -/
def deleteNoteFn (notes : List Note) (id : String) : List Note :=
  notes.filter fun note => note.id != id

/-- The `NoteCard` debounced autosave write: the editor calls `onUpdate`
with the settled edited note and `updatedAt` refreshed, which runs
`updateNote.mutationFn`. -/
def cardOnUpdate (notes : List Note) (debouncedNote : Note)
    (now : String) : List Note :=
  updateNoteFn notes { debouncedNote with updatedAt := now }

/-- The `NoteCard` debounced effect (part_000, lines 60-70): fires only
when the card is the selected one and the settled edit differs from the
stored note (the `JSON.stringify` comparison is structural equality);
`none` means no write happened. -/
def cardDebouncedEffect (selectedId : Option String)
    (note debouncedNote : Note) (now : String) (notes : List Note) :
    Option (List Note) :=
  if selectedId = some note.id ∧ debouncedNote ≠ note then
    some (cardOnUpdate notes debouncedNote now)
  else none

/-- The draft object `{ id, createdAt, updatedAt, ...newNote }` built by
the dialog effect. -/
def mkDraftNote (id now : String) (fields : NoteFields) : Note :=
  { id := id, createdAt := now, updatedAt := now
  , title := fields.title, content := fields.content
  , color := fields.color, tags := fields.tags, items := fields.items }

/-- JavaScript `String.prototype.trim`, characterwise: strip leading and
trailing whitespace. -/
def jsTrim (s : String) : String :=
  String.mk
    (((s.data.dropWhile Char.isWhitespace).reverse.dropWhile
        Char.isWhitespace).reverse)

/-- The spread `{ ...note, ...newNote, updatedAt: now }`: keeps the note's
id and `createdAt`, takes every dialog field, refreshes `updatedAt`. -/
def mergeFields (note : Note) (fields : NoteFields) (now : String) : Note :=
  { note with
    title := fields.title, content := fields.content,
    color := fields.color, tags := fields.tags, items := fields.items,
    updatedAt := now }

/-- The dialog's create-or-update draft effect (lines 287-314): when the
modal is open and the trimmed title is non-empty, it either creates the
draft (no draft id yet: mint `freshId`, append the draft, write) or
updates it in place.  Returns `none` when the guard fails and nothing is
written, otherwise the session's draft id and the collection written. -/
def dialogDraftEffect (isModalOpen : Bool) (draftId : Option String)
    (newNote : NoteFields) (freshId now : String) (notes : List Note) :
    Option (String × List Note) :=
  if isModalOpen = true ∧ jsTrim newNote.title ≠ "" then
    match draftId with
    | none => some (freshId, notes ++ [mkDraftNote freshId now newNote])
    | some did =>
        some (did, notes.map fun note =>
          if note.id = did then mergeFields note newNote now else note)
  else none

/-- The dialog's close effect (lines 317-325): when the modal is closed
while a draft id exists, the draft is filtered out of the collection and
the result written; `none` means no write. -/
def closeDialogEffect (isModalOpen : Bool) (draftId : Option String)
    (notes : List Note) : Option (List Note) :=
  if isModalOpen = false then
    match draftId with
    | some did => some (notes.filter fun note => note.id != did)
    | none => none
  else none

/-- `handleSave` (lines 328-348): with a non-empty trimmed title it either
finalises the draft in place (draft id exists) or runs
`createNote.mutationFn`; with an empty trimmed title it only closes the
dialog and writes nothing (`none`). -/
def handleSave (draftId : Option String) (newNote : NoteFields)
    (freshId now : String) (notes : List Note) : Option (List Note) :=
  if jsTrim newNote.title ≠ "" then
    match draftId with
    | some did =>
        some (notes.map fun note =>
          if note.id = did then mergeFields note newNote now else note)
    | none => some (createNoteFn notes newNote freshId now).2
  else none

/-- JavaScript `Array.prototype.splice` start-index normalisation:
negative indices count from the end and are clamped at 0, non-negative
indices are clamped at the length. -/
def jsSpliceStart (len : Nat) (start : Int) : Nat :=
  if start < 0 then ((len : Int) + start).toNat else min start.toNat len

/-- `moveNote.mutationFn` (lines 157-170) with full JavaScript splice
semantics: `splice(fromIndex, 1)` removes the element at the clamped
start (or nothing when it is past the end, leaving `movedNote`
undefined, modelled `none`), then `splice(toIndex, 0, movedNote)`
reinserts the removed value — possibly the undefined placeholder — at the
clamped target position; the result is written to storage verbatim. -/
def jsMoveNote (notes : List Note) (fromIndex toIndex : Int) :
    List (Option Note) :=
  let s := jsSpliceStart notes.length fromIndex
  let movedNote : Option Note := notes[s]?
  let arr2 := notes.eraseIdx s
  let t := jsSpliceStart arr2.length toIndex
  List.insertIdx t movedNote (arr2.map some)

/-- The behaviour of `moveNote.mutationFn` on in-range indices, as a total
function on note lists: remove the element at `i`, reinsert it at `j`. -/
def moveNoteValid (notes : List Note) (i j : Nat) : List Note :=
  match notes[i]? with
  | none => notes
  | some x => List.insertIdx j x (notes.eraseIdx i)

/-- The ephemeral filter state: `selectedColors`, `selectedTags`,
`searchQuery`. -/
structure FilterCriteria where
  selectedColors : List String
  selectedTags : List String
  searchQuery : String
deriving DecidableEq, Repr

/-- Whether the first list starts with the second. -/
def charsStartWith : List Char → List Char → Bool
  | _, [] => true
  | [], _ :: _ => false
  | a :: as, b :: bs => a == b && charsStartWith as bs

/-- Whether `sub` occurs contiguously in the list. -/
def charsContain (sub : List Char) : List Char → Bool
  | [] => sub.isEmpty
  | a :: t => charsStartWith (a :: t) sub || charsContain sub t

/-- JavaScript `String.prototype.includes`. -/
def jsIncludes (hay needle : String) : Bool :=
  charsContain needle.toList hay.toList

/-- JavaScript `String.prototype.toLowerCase`, characterwise. -/
def jsToLower (s : String) : String := String.mk (s.data.map Char.toLower)

/-- The first filter pass (lines 244-252): everything passes when no
color and no tag is selected, otherwise the color conjunct and the tag
conjunct of the source. -/
def colorTagPred (selectedColors selectedTags : List String)
    (note : Note) : Bool :=
  if selectedColors.isEmpty && selectedTags.isEmpty then true
  else
    (selectedColors.isEmpty || selectedColors.contains note.color) &&
    (selectedTags.isEmpty ||
      selectedTags.any fun tag => note.tags.contains tag)

/-- The second filter pass (lines 253-262): everything passes on an empty
search string, otherwise the case-insensitive substring test on title,
content and tags. -/
def searchPred (searchQuery : String) (note : Note) : Bool :=
  if searchQuery == "" then true
  else
    jsIncludes (jsToLower note.title) (jsToLower searchQuery) ||
    jsIncludes (jsToLower note.content) (jsToLower searchQuery) ||
    note.tags.any fun tag =>
      jsIncludes (jsToLower tag) (jsToLower searchQuery)

/-- `filteredNotes` (lines 243-262): the two chained `.filter` passes. -/
def filteredNotes (notes : List Note) (c : FilterCriteria) : List Note :=
  (notes.filter
      (colorTagPred c.selectedColors c.selectedTags)).filter
    (searchPred c.searchQuery)

/-- Modelled from the spec: the matching predicate of §3 — (color set
empty OR note's color in it) AND (tag set empty OR the note's tags
intersect it) AND (search empty OR a case-insensitive substring of title,
content or some tag). -/
def specMatches (c : FilterCriteria) (note : Note) : Bool :=
  ((c.selectedColors.isEmpty || c.selectedColors.contains note.color) &&
   (c.selectedTags.isEmpty ||
     note.tags.any fun tag => c.selectedTags.contains tag)) &&
  (c.searchQuery == "" ||
   (jsIncludes (jsToLower note.title) (jsToLower c.searchQuery) ||
    jsIncludes (jsToLower note.content) (jsToLower c.searchQuery) ||
    note.tags.any fun tag =>
      jsIncludes (jsToLower tag) (jsToLower c.searchQuery)))

/-- A repository operation, as issued by the UI. -/
inductive Op where
  | create (fields : NoteFields) (freshId now : String) : Op
  | update (debouncedNote : Note) (now : String) : Op
  | delete (id : String) : Op
  | move (fromIndex toIndex : Nat) : Op
deriving DecidableEq, Repr

/-- The collection each mutation computes and writes, as a function of the
collection it read. -/
def applyNotes (notes : List Note) : Op → List Note
  | .create fields freshId now => (createNoteFn notes fields freshId now).2
  | .update debouncedNote now => cardOnUpdate notes debouncedNote now
  | .delete id => deleteNoteFn notes id
  | .move i j => moveNoteValid notes i j

/-- The reconciliation state: the query cache (`mem`) and the persisted
blob (`storage`). -/
structure ModelState where
  mem : List Note
  storage : Stored
deriving DecidableEq, Repr

/-- One repository operation: the mutation reads the cache, computes the
new collection, writes it to storage, and the success handler leaves the
cache holding that same collection (via invalidate-and-refetch for
create, update and delete, via `setQueryData` for move). -/
def applyOp (s : ModelState) (op : Op) : ModelState :=
  { mem := applyNotes s.mem op, storage := Stored.valid (applyNotes s.mem op) }

/-- An operation is valid at a collection when its indices, if any, are in
range (only `move` carries indices). -/
def opValid (notes : List Note) : Op → Bool
  | .move i j => decide (i < notes.length) && decide (j < notes.length)
  | _ => true

/-- Every operation of the sequence is valid at the state where it runs. -/
def seqValid (notes : List Note) : List Op → Bool
  | [] => true
  | op :: rest => opValid notes op && seqValid (applyNotes notes op) rest

/-- The state after each individual operation of the sequence. -/
def afterStates (s : ModelState) : List Op → List ModelState
  | [] => []
  | op :: rest => applyOp s op :: afterStates (applyOp s op) rest

/-- The persisted blob holds exactly the in-memory collection. -/
def inSync (s : ModelState) : Prop := s.storage = Stored.valid s.mem

/-- A sample saved note, used for concrete instances. -/
def noteA : Note :=
  { id := "n1", title := "Alpha", content := "first body"
  , createdAt := "2024-01-01T00:00:00.000Z"
  , updatedAt := "2024-01-01T00:00:00.000Z"
  , color := "bg-blue-200 border-blue-400", tags := ["work"], items := some [] }

/-- A second sample saved note. -/
def noteB : Note :=
  { id := "n2", title := "Beta", content := "second body"
  , createdAt := "2024-01-02T00:00:00.000Z"
  , updatedAt := "2024-01-02T00:00:00.000Z"
  , color := "bg-green-200 border-green-400", tags := ["home"], items := some [] }

/-- A third sample saved note. -/
def noteC : Note :=
  { id := "n3", title := "Gamma", content := "third body"
  , createdAt := "2024-01-03T00:00:00.000Z"
  , updatedAt := "2024-01-03T00:00:00.000Z"
  , color := "bg-pink-200 border-pink-400", tags := [], items := none }

/-! ## General list lemmas used by the reorder proofs -/

theorem perm_insertIdx_cons {α : Type} (a : α) :
    ∀ (n : Nat) (l : List α), n ≤ l.length →
      List.Perm (List.insertIdx n a l) (a :: l)
  | 0, l, _ => by simp [List.insertIdx_zero]
  | n + 1, [], h => by simp at h
  | n + 1, b :: l, h => by
      rw [List.insertIdx_succ_cons]
      exact ((perm_insertIdx_cons a n l (by simpa using h)).cons b).trans
        (List.Perm.swap a b l)

theorem cons_eraseIdx_perm {α : Type} :
    ∀ (l : List α) (i : Nat) (x : α), l[i]? = some x →
      List.Perm (x :: l.eraseIdx i) l
  | [], i, x, h => by simp at h
  | a :: l, 0, x, h => by
      simp only [List.getElem?_cons_zero, Option.some.injEq] at h
      subst h
      simp
  | a :: l, i + 1, x, h => by
      have h' : l[i]? = some x := by simpa using h
      have e1 : x :: (a :: l).eraseIdx (i + 1) = x :: a :: l.eraseIdx i := by
        simp [List.eraseIdx]
      rw [e1]
      exact (List.Perm.swap a x (l.eraseIdx i)).trans
        ((cons_eraseIdx_perm l i x h').cons a)

theorem insertIdx_eraseIdx_getElem {α : Type} :
    ∀ (l : List α) (i : Nat) (x : α), l[i]? = some x →
      List.insertIdx i x (l.eraseIdx i) = l
  | [], i, x, h => by simp at h
  | a :: l, 0, x, h => by
      simp only [List.getElem?_cons_zero, Option.some.injEq] at h
      subst h
      simp [List.eraseIdx, List.insertIdx_zero]
  | a :: l, i + 1, x, h => by
      have h' : l[i]? = some x := by simpa using h
      simp [List.eraseIdx, List.insertIdx_succ_cons,
        insertIdx_eraseIdx_getElem l i x h']

theorem map_insertIdx {α β : Type} (f : α → β) :
    ∀ (n : Nat) (a : α) (l : List α),
      (List.insertIdx n a l).map f = List.insertIdx n (f a) (l.map f)
  | 0, a, l => by simp [List.insertIdx_zero]
  | n + 1, a, [] => by simp [List.insertIdx_succ_nil]
  | n + 1, a, b :: l => by
      simp [List.insertIdx_succ_cons, map_insertIdx f n a l]

end Notebook

namespace Notebook

/-! ## C2 -/

/-- C2 counterexample: on a non-empty stored string that is not valid
JSON, `load` propagates the parse error instead of returning the empty
collection. -/
theorem c2_counterexample :
    load Stored.corrupt ≠ Except.ok ([] : List Note) := by
  simp [load]

/-- C2 (amended): `load` returns the empty collection when storage is
absent or holds the empty string (both falsy), and the stored collection
when it is valid; on a non-empty stored string that is not valid JSON it
raises a parse error instead of returning the empty collection — the
query layer catches the error and the component's destructuring default
still leaves the caller observing an empty collection, uncrashed. -/
theorem c2_load_behaviour :
    load Stored.absent = Except.ok ([] : List Note) ∧
    load Stored.empty = Except.ok ([] : List Note) ∧
    (∀ ns : List Note, load (Stored.valid ns) = Except.ok ns) ∧
    (∃ e, load Stored.corrupt = Except.error e) ∧
    notesQueryData (load Stored.corrupt) = [] :=
  ⟨rfl, rfl, fun _ => rfl, ⟨_, rfl⟩, rfl⟩

/-! ## C4 -/

/-- C4: closing the dialog without an explicit save while a draft id
exists writes a collection in which no note carries the draft id, and
once the dialog is closed the draft create-or-update effect (guarded on
the modal being open) writes nothing more — so the draft cannot persist
or be resurrected after dismissal. -/
theorem c4_close_removes_draft (notes written : List Note) (did : String)
    (h : closeDialogEffect false (some did) notes = some written) :
    (∀ n ∈ written, n.id ≠ did) ∧
    (∀ (dId : Option String) (fields : NoteFields) (freshId now : String)
        (l : List Note), dialogDraftEffect false dId fields freshId now l = none) := by
  have hw : written = notes.filter fun note => note.id != did := by
    simpa [closeDialogEffect] using h.symm
  constructor
  · intro n hn
    subst hw
    have := List.of_mem_filter hn
    simpa using this
  · intro dId fields freshId now l
    simp [dialogDraftEffect]

/-- C4 witness: a concrete session where the draft `noteB` was created
and the dialog is closed without saving. -/
theorem c4_close_removes_draft_witness :
    (∀ n ∈ [noteA], n.id ≠ "n2") ∧
    (∀ (dId : Option String) (fields : NoteFields) (freshId now : String)
        (l : List Note), dialogDraftEffect false dId fields freshId now l = none) :=
  c4_close_removes_draft [noteA, noteB] [noteA] "n2" (by decide)

/-! ## C5 -/

/-- C5: `createNote` returns a note carrying the fresh id (non-empty and
absent from the collection), with `createdAt` equal to `updatedAt`, and
the written collection is the old one with the new note appended at the
end; with the dialog defaults and title "Groceries", content
"milk, eggs", the created note takes the palette's first color, no tags
and an empty checklist. -/
theorem c5_create_spec (notes : List Note) (fields : NoteFields)
    (freshId now : String) (h1 : freshId ≠ "")
    (h2 : freshId ∉ notes.map Note.id) :
    (createNoteFn notes fields freshId now).1.id ≠ "" ∧
    (createNoteFn notes fields freshId now).1.id ∉ notes.map Note.id ∧
    (createNoteFn notes fields freshId now).1.createdAt =
      (createNoteFn notes fields freshId now).1.updatedAt ∧
    (createNoteFn notes fields freshId now).2 =
      notes ++ [(createNoteFn notes fields freshId now).1] ∧
    (fields = { initialNewNote with title := "Groceries", content := "milk, eggs" } →
      (createNoteFn notes fields freshId now).1.color = COLORS.getD 0 "" ∧
      (createNoteFn notes fields freshId now).1.tags = [] ∧
      (createNoteFn notes fields freshId now).1.items = some []) := by
  refine ⟨h1, h2, rfl, rfl, fun hf => ?_⟩
  subst hf
  exact ⟨rfl, rfl, rfl⟩

/-- C5 witness: the Groceries scenario on the sample collection with a
concrete fresh id. -/
theorem c5_create_spec_witness :
    (createNoteFn [noteA]
        { initialNewNote with title := "Groceries", content := "milk, eggs" }
        "n9" "2024-02-01T00:00:00.000Z").1.id ≠ "" ∧
    (createNoteFn [noteA]
        { initialNewNote with title := "Groceries", content := "milk, eggs" }
        "n9" "2024-02-01T00:00:00.000Z").1.id ∉ [noteA].map Note.id ∧
    (createNoteFn [noteA]
        { initialNewNote with title := "Groceries", content := "milk, eggs" }
        "n9" "2024-02-01T00:00:00.000Z").1.createdAt =
      (createNoteFn [noteA]
        { initialNewNote with title := "Groceries", content := "milk, eggs" }
        "n9" "2024-02-01T00:00:00.000Z").1.updatedAt ∧
    (createNoteFn [noteA]
        { initialNewNote with title := "Groceries", content := "milk, eggs" }
        "n9" "2024-02-01T00:00:00.000Z").2 =
      [noteA] ++ [(createNoteFn [noteA]
        { initialNewNote with title := "Groceries", content := "milk, eggs" }
        "n9" "2024-02-01T00:00:00.000Z").1] ∧
    ({ initialNewNote with title := "Groceries", content := "milk, eggs" } =
        { initialNewNote with title := "Groceries", content := "milk, eggs" } →
      (createNoteFn [noteA]
        { initialNewNote with title := "Groceries", content := "milk, eggs" }
        "n9" "2024-02-01T00:00:00.000Z").1.color = COLORS.getD 0 "" ∧
      (createNoteFn [noteA]
        { initialNewNote with title := "Groceries", content := "milk, eggs" }
        "n9" "2024-02-01T00:00:00.000Z").1.tags = [] ∧
      (createNoteFn [noteA]
        { initialNewNote with title := "Groceries", content := "milk, eggs" }
        "n9" "2024-02-01T00:00:00.000Z").1.items = some []) :=
  c5_create_spec [noteA]
    { initialNewNote with title := "Groceries", content := "milk, eggs" }
    "n9" "2024-02-01T00:00:00.000Z" (by decide) (by decide)

/-! ## C6 -/

/-- C6: through the card editor path, `updateNote` replaces the note whose
id matches with the given note carrying `updatedAt = now`, leaves every
other position unchanged, and is a no-op when no note with that id
exists. -/
theorem c6_update_spec (notes : List Note) (e : Note) (now : String) :
    (∀ (k : Nat) (m : Note), notes[k]? = some m → m.id = e.id →
      (cardOnUpdate notes e now)[k]? = some { e with updatedAt := now }) ∧
    (∀ (k : Nat) (m : Note), notes[k]? = some m → m.id ≠ e.id →
      (cardOnUpdate notes e now)[k]? = some m) ∧
    ((∀ m ∈ notes, m.id ≠ e.id) → cardOnUpdate notes e now = notes) := by
  refine ⟨?_, ?_, ?_⟩
  · intro k m hk hid
    simp [cardOnUpdate, updateNoteFn, hk, hid]
  · intro k m hk hid
    simp [cardOnUpdate, updateNoteFn, hk, hid]
  · intro h
    unfold cardOnUpdate updateNoteFn
    have hpt : ∀ m ∈ notes,
        (if m.id = ({ e with updatedAt := now } : Note).id
          then ({ e with updatedAt := now } : Note) else m) = m := by
      intro m hm
      simp [h m hm]
    rw [List.map_congr_left hpt, List.map_id']

/-- C6 witness: concrete replacement, preservation and no-op instances on
the sample notes. -/
theorem c6_update_spec_witness :
    (cardOnUpdate [noteA, noteB] { noteA with content := "edited" } "t5")[0]? =
      some { { noteA with content := "edited" } with updatedAt := "t5" } ∧
    (cardOnUpdate [noteA, noteB] { noteA with content := "edited" } "t5")[1]? =
      some noteB ∧
    cardOnUpdate [noteB] { noteA with content := "edited" } "t5" = [noteB] :=
  ⟨(c6_update_spec [noteA, noteB] { noteA with content := "edited" } "t5").1
      0 noteA (by decide) (by decide),
   (c6_update_spec [noteA, noteB] { noteA with content := "edited" } "t5").2.1
      1 noteB (by decide) (by decide),
   (c6_update_spec [noteB] { noteA with content := "edited" } "t5").2.2
      (by decide)⟩

/-! ## C3, C9, C10: splice index facts -/

theorem jsSpliceStart_le (len : Nat) (start : Int) :
    jsSpliceStart len start ≤ len := by
  unfold jsSpliceStart
  split <;> omega

theorem jsSpliceStart_of_length_le (len : Nat) (start : Int)
    (h : (len : Int) ≤ start) : jsSpliceStart len start = len := by
  unfold jsSpliceStart
  split <;> omega

theorem jsSpliceStart_coe_of_lt (len i : Nat) (h : i < len) :
    jsSpliceStart len (i : Int) = i := by
  unfold jsSpliceStart
  split <;> omega

/-- On in-range indices `jsMoveNote` computes exactly the remove-reinsert
move, with every entry defined. -/
theorem jsMoveNote_valid (notes : List Note) (i j : Nat)
    (hi : i < notes.length) (hj : j < notes.length) :
    jsMoveNote notes (i : Int) (j : Int) = (moveNoteValid notes i j).map some := by
  have hs : jsSpliceStart notes.length (i : Int) = i :=
    jsSpliceStart_coe_of_lt _ _ hi
  have hget : notes[i]? = some notes[i] := List.getElem?_eq_getElem hi
  have hlen : (notes.eraseIdx i).length = notes.length - 1 :=
    List.length_eraseIdx_of_lt hi
  have ht : jsSpliceStart (notes.eraseIdx i).length (j : Int) = j := by
    rw [hlen]
    unfold jsSpliceStart
    split <;> omega
  simp only [jsMoveNote, moveNoteValid, hs, hget, ht]
  exact (map_insertIdx some j notes[i] (notes.eraseIdx i)).symm

/-- Moving `i` to `j` and then `j` back to `i` restores the collection. -/
theorem moveNoteValid_inverse (notes : List Note) (i j : Nat)
    (hi : i < notes.length) (hj : j < notes.length) :
    moveNoteValid (moveNoteValid notes i j) j i = notes := by
  have hget : notes[i]? = some notes[i] := List.getElem?_eq_getElem hi
  have hm1 : moveNoteValid notes i j =
      List.insertIdx j notes[i] (notes.eraseIdx i) := by
    simp [moveNoteValid, hget]
  have he : (notes.eraseIdx i).length = notes.length - 1 :=
    List.length_eraseIdx_of_lt hi
  have hjle : j ≤ (notes.eraseIdx i).length := by omega
  have hlen1 : (List.insertIdx j notes[i] (notes.eraseIdx i)).length =
      notes.length := by
    rw [List.length_insertIdx _ _ hjle]
    omega
  have hj2 : j < (List.insertIdx j notes[i] (notes.eraseIdx i)).length := by
    omega
  have hget2 : (List.insertIdx j notes[i] (notes.eraseIdx i))[j]? =
      some notes[i] := by
    rw [List.getElem?_eq_getElem hj2, List.getElem_insertIdx_self _ _ _ hjle]
  rw [hm1]
  have hstep : moveNoteValid (List.insertIdx j notes[i] (notes.eraseIdx i)) j i
      = List.insertIdx i notes[i] (notes.eraseIdx i) := by
    simp [moveNoteValid, hget2, List.eraseIdx_insertIdx]
  rw [hstep]
  exact insertIdx_eraseIdx_getElem notes i notes[i] hget

/-! ## C3 -/

/-- C3 counterexample: on the one-note collection, `reorder(1, 0)` has
`fromIndex` out of range; the operation is not rejected — it inserts an
undefined placeholder and writes a changed collection. -/
theorem c3_counterexample :
    jsMoveNote [noteA] 1 0 ≠ [noteA].map some ∧
    jsMoveNote [noteA] 1 0 = [none, some noteA] := by
  constructor <;> decide

/-- C3 (amended): out-of-range reorder indices are neither rejected nor
errors: JavaScript splice clamps them, and with `fromIndex` at or past
the end the mutation inserts an undefined placeholder at the clamped
target position and persists this changed collection — in particular the
collection is not left unchanged. -/
theorem c3_out_of_range_clamped (notes : List Note) (fromIndex toIndex : Int)
    (h : (notes.length : Int) ≤ fromIndex) :
    jsMoveNote notes fromIndex toIndex =
      List.insertIdx (jsSpliceStart notes.length toIndex) (none : Option Note)
        (notes.map some) ∧
    jsMoveNote notes fromIndex toIndex ≠ notes.map some := by
  have hs : jsSpliceStart notes.length fromIndex = notes.length :=
    jsSpliceStart_of_length_le _ _ h
  have hget : notes[notes.length]? = (none : Option Note) :=
    List.getElem?_eq_none le_rfl
  have herase : notes.eraseIdx notes.length = notes :=
    List.eraseIdx_of_length_le le_rfl
  have hmain : jsMoveNote notes fromIndex toIndex =
      List.insertIdx (jsSpliceStart notes.length toIndex) (none : Option Note)
        (notes.map some) := by
    simp only [jsMoveNote, hs, hget, herase]
  refine ⟨hmain, ?_⟩
  rw [hmain]
  intro hcontra
  have htle : jsSpliceStart notes.length toIndex ≤ (notes.map some).length := by
    simpa using jsSpliceStart_le notes.length toIndex
  have h1 : (List.insertIdx (jsSpliceStart notes.length toIndex)
      (none : Option Note) (notes.map some)).length = notes.length + 1 := by
    rw [List.length_insertIdx _ _ htle]
    simp
  rw [hcontra] at h1
  simp at h1

/-- C3 witness for the amended statement: `reorder(5, 1)` on the two-note
collection. -/
theorem c3_out_of_range_clamped_witness :
    jsMoveNote [noteA, noteB] 5 1 =
      List.insertIdx (jsSpliceStart (List.length [noteA, noteB]) 1)
        (none : Option Note) ([noteA, noteB].map some) ∧
    jsMoveNote [noteA, noteB] 5 1 ≠ [noteA, noteB].map some :=
  c3_out_of_range_clamped [noteA, noteB] 5 1 (by decide)

/-! ## C9 -/

/-- C9: for in-range `i ≠ j`, `reorder(i, j)` followed by `reorder(j, i)`
restores the original collection (stated on the splice embedding and on
the total move function it computes). -/
theorem c9_reorder_inverse (notes : List Note) (i j : Nat)
    (hi : i < notes.length) (hj : j < notes.length) (_hij : i ≠ j) :
    jsMoveNote notes (i : Int) (j : Int) = (moveNoteValid notes i j).map some ∧
    jsMoveNote (moveNoteValid notes i j) (j : Int) (i : Int) = notes.map some ∧
    moveNoteValid (moveNoteValid notes i j) j i = notes := by
  have hget : notes[i]? = some notes[i] := List.getElem?_eq_getElem hi
  have he : (notes.eraseIdx i).length = notes.length - 1 :=
    List.length_eraseIdx_of_lt hi
  have hjle : j ≤ (notes.eraseIdx i).length := by omega
  have hlen : (moveNoteValid notes i j).length = notes.length := by
    simp only [moveNoteValid, hget]
    rw [List.length_insertIdx _ _ hjle]
    omega
  refine ⟨jsMoveNote_valid notes i j hi hj, ?_,
    moveNoteValid_inverse notes i j hi hj⟩
  rw [jsMoveNote_valid (moveNoteValid notes i j) j i (by omega) (by omega),
    moveNoteValid_inverse notes i j hi hj]

/-- C9 witness: `reorder(0, 2)` then `reorder(2, 0)` on the three-note
sample collection. -/
theorem c9_reorder_inverse_witness :
    jsMoveNote [noteA, noteB, noteC] ((0 : Nat) : Int) ((2 : Nat) : Int) =
      (moveNoteValid [noteA, noteB, noteC] 0 2).map some ∧
    jsMoveNote (moveNoteValid [noteA, noteB, noteC] 0 2)
        ((2 : Nat) : Int) ((0 : Nat) : Int) = [noteA, noteB, noteC].map some ∧
    moveNoteValid (moveNoteValid [noteA, noteB, noteC] 0 2) 2 0 =
      [noteA, noteB, noteC] :=
  c9_reorder_inverse [noteA, noteB, noteC] 0 2 (by decide) (by decide) (by decide)

/-! ## C10 -/

/-- C10: an in-range reorder keeps the length and permutes exactly the
same notes — none duplicated, dropped or modified. -/
theorem c10_reorder_perm (notes : List Note) (i j : Nat)
    (hi : i < notes.length) (hj : j < notes.length) :
    (jsMoveNote notes (i : Int) (j : Int)).length = notes.length ∧
    List.Perm (jsMoveNote notes (i : Int) (j : Int)) (notes.map some) := by
  have hget : notes[i]? = some notes[i] := List.getElem?_eq_getElem hi
  have he : (notes.eraseIdx i).length = notes.length - 1 :=
    List.length_eraseIdx_of_lt hi
  have hjle : j ≤ (notes.eraseIdx i).length := by omega
  have hperm : List.Perm (moveNoteValid notes i j) notes := by
    simp only [moveNoteValid, hget]
    exact (perm_insertIdx_cons notes[i] j _ hjle).trans
      (cons_eraseIdx_perm notes i notes[i] hget)
  rw [jsMoveNote_valid notes i j hi hj]
  constructor
  · simp [hperm.length_eq]
  · exact hperm.map some

/-- C10 witness: `reorder(2, 0)` on the three-note sample collection. -/
theorem c10_reorder_perm_witness :
    (jsMoveNote [noteA, noteB, noteC] ((2 : Nat) : Int) ((0 : Nat) : Int)).length =
      [noteA, noteB, noteC].length ∧
    List.Perm (jsMoveNote [noteA, noteB, noteC] ((2 : Nat) : Int) ((0 : Nat) : Int))
      ([noteA, noteB, noteC].map some) :=
  c10_reorder_perm [noteA, noteB, noteC] 2 0 (by decide) (by decide)

/-! ## C7 -/

/-- Testing one list's elements for membership in another does not depend
on which list is traversed. -/
theorem any_contains_comm (l₁ l₂ : List String) :
    (l₁.any fun a => decide (a ∈ l₂)) = (l₂.any fun a => decide (a ∈ l₁)) := by
  rw [Bool.eq_iff_iff]
  simp only [List.any_eq_true, decide_eq_true_eq]
  exact ⟨fun ⟨a, h1, h2⟩ => ⟨a, h2, h1⟩, fun ⟨a, h1, h2⟩ => ⟨a, h2, h1⟩⟩

/-- The source's first filter pass, with its both-empty shortcut, equals
the plain conjunction of the color and tag disjunctions. -/
theorem colorTagPred_eq (sc st : List String) (note : Note) :
    colorTagPred sc st note =
      ((sc.isEmpty || sc.contains note.color) &&
       (st.isEmpty || note.tags.any fun tag => st.contains tag)) := by
  unfold colorTagPred
  cases hsc : sc.isEmpty <;> cases hst : st.isEmpty <;>
    simp [hsc, hst, any_contains_comm st note.tags]

/-- The source's second filter pass equals the search disjunction. -/
theorem searchPred_eq (q : String) (note : Note) :
    searchPred q note =
      (q == "" ||
        (jsIncludes (jsToLower note.title) (jsToLower q) ||
         jsIncludes (jsToLower note.content) (jsToLower q) ||
         note.tags.any fun tag => jsIncludes (jsToLower tag) (jsToLower q))) := by
  unfold searchPred
  cases hq : (q == "") <;> simp [hq]

/-- C7: the displayed list is exactly the order-preserving subsequence of
notes matching the spec's predicate — (color set empty OR color
selected) AND (tag set empty OR tags intersect) AND (search empty OR
case-insensitive substring of title, content or a tag). -/
theorem c7_filter_spec (notes : List Note) (c : FilterCriteria) :
    filteredNotes notes c = notes.filter (specMatches c) := by
  unfold filteredNotes
  rw [List.filter_filter]
  apply List.filter_congr
  intro note _
  rw [searchPred_eq, colorTagPred_eq, Bool.and_comm]
  rfl

/-! ## C8 -/

/-- C8: starting from any reconciliation state, after each individual
create, update, delete or (in-range) reorder operation of any sequence,
the persisted collection is exactly the in-memory collection. -/
theorem c8_no_drift (s : ModelState) (ops : List Op)
    (h : seqValid s.mem ops = true) :
    ∀ s' ∈ afterStates s ops, inSync s' := by
  induction ops generalizing s with
  | nil =>
    intro s' hs'
    simp [afterStates] at hs'
  | cons op rest ih =>
    intro s' hs'
    simp only [afterStates, List.mem_cons] at hs'
    rcases hs' with rfl | hmem
    · rfl
    · have h' : seqValid (applyNotes s.mem op) rest = true := by
        have hh := h
        simp only [seqValid, Bool.and_eq_true] at hh
        exact hh.2
      exact ih (applyOp s op) h' s' hmem

/-- A concrete starting state for the drift witness. -/
def startState : ModelState :=
  { mem := [noteA, noteB], storage := Stored.valid [noteA, noteB] }

/-- A concrete operation sequence exercising all four operations. -/
def opsExample : List Op :=
  [ Op.create { initialNewNote with title := "Groceries", content := "milk, eggs" }
      "n9" "2024-02-01T00:00:00.000Z"
  , Op.move 0 2
  , Op.update { noteA with content := "edited" } "2024-02-02T00:00:00.000Z"
  , Op.delete "n2" ]

/-- C8 witness: the sample sequence is valid and every intermediate state
is in sync. -/
theorem c8_no_drift_witness :
    seqValid startState.mem opsExample = true ∧
    ∀ s' ∈ afterStates startState opsExample, inSync s' :=
  ⟨by decide, c8_no_drift startState opsExample (by decide)⟩

/-! ## C1 -/

/-- C1 counterexample: with the saved note `noteA` selected in the card
editor and its title edited down to a blank string, the debounced update
effect fires and persists a finalized note whose trimmed title is
empty. -/
theorem c1_counterexample :
    cardDebouncedEffect (some "n1") noteA { noteA with title := " " } "t2" [noteA] =
      some [{ noteA with title := " ", updatedAt := "t2" }] ∧
    ∃ m ∈ [{ noteA with title := " ", updatedAt := "t2" }], jsTrim m.title = "" := by
  constructor
  · decide
  · exact ⟨{ noteA with title := " ", updatedAt := "t2" }, List.mem_singleton.mpr rfl,
      by decide⟩

/-- C1 (amended): the creation paths are guarded — with an empty trimmed
title neither the dialog's draft create-or-update effect nor `handleSave`
writes anything to storage; the card editor's debounced update path,
however, carries no title guard and can persist a finalized note whose
trimmed title is empty. -/
theorem c1_create_paths_guard_empty_title (isModalOpen : Bool)
    (draftId : Option String) (fields : NoteFields) (freshId now : String)
    (notes : List Note) (h : jsTrim fields.title = "") :
    dialogDraftEffect isModalOpen draftId fields freshId now notes = none ∧
    handleSave draftId fields freshId now notes = none := by
  constructor <;> simp [dialogDraftEffect, handleSave, h]

/-- C1 witness: an empty-titled dialog session writes nothing. -/
theorem c1_create_paths_guard_empty_title_witness :
    dialogDraftEffect true none { initialNewNote with content := "body" }
      "n9" "t9" [noteA] = none ∧
    handleSave none { initialNewNote with content := "body" }
      "n9" "t9" [noteA] = none :=
  c1_create_paths_guard_empty_title true none
    { initialNewNote with content := "body" } "n9" "t9" [noteA] (by decide)

end Notebook
